import Mathlib

/-!
Shallow embedding of the cart/box physics-demo core of the pSim repository.

The embedded code is the per-frame simulation loop and reset logic of
src/src/components/Scene.tsx together with the command handlers of the App
component (src/unnamed/part_000).  Numeric values are embedded as rationals;
vectors and quaternions are records of rationals.  Presentation-only effects
of the frame loop (console logging, the debug wheel-position display, and the
selected-object info callback) are omitted: they read state but never write
the bodies, the camera, the telemetry or the completion callback.
-/

/-- A 3-component vector, as used for translations and velocities. -/
structure Vec3 where
  x : ℚ
  y : ℚ
  z : ℚ
deriving DecidableEq

/-- An orientation quaternion with components x, y, z, w. -/
structure Quat where
  x : ℚ
  y : ℚ
  z : ℚ
  w : ℚ
deriving DecidableEq

def zeroVec : Vec3 := ⟨0, 0, 0⟩

/-- The identity quaternion { x: 0, y: 0, z: 0, w: 1 }. -/
def identityQuat : Quat := ⟨0, 0, 0, 1⟩

def vecAdd (a b : Vec3) : Vec3 := ⟨a.x + b.x, a.y + b.y, a.z + b.z⟩

/-- Squared Euclidean norm of a quaternion. -/
def quatNormSq (q : Quat) : ℚ := q.x * q.x + q.y * q.y + q.z * q.z + q.w * q.w

/-- State of one rigid body as read and written through its handle:
translation, linear velocity, angular velocity, rotation. -/
structure Body where
  position : Vec3
  linvel : Vec3
  angvel : Vec3
  rotation : Quat
deriving DecidableEq

/-! ### Derived geometry constants (Scene.tsx lines 40-99) -/

def CART_SIZE_width : ℚ := 2
def CART_SIZE_height : ℚ := 0.5
def CART_SIZE_depth : ℚ := 0.8

def BOX_SIZE_width : ℚ := 0.5
def BOX_SIZE_height : ℚ := 0.5
def BOX_SIZE_depth : ℚ := 0.5

def WHEEL_SIZE_radius : ℚ := 0.1
def WHEEL_SIZE_width : ℚ := 0.1

def FLOOR_HEIGHT : ℚ := -0.1
def FLOOR_THICKNESS : ℚ := 0.2

def FLOOR_TOP_Y : ℚ := FLOOR_HEIGHT + FLOOR_THICKNESS / 2

def WHEEL_CENTER_Y : ℚ := FLOOR_TOP_Y + WHEEL_SIZE_radius

def CART_BOTTOM_Y : ℚ := FLOOR_TOP_Y + WHEEL_SIZE_radius / 2
def CART_CENTER_Y : ℚ := CART_BOTTOM_Y + CART_SIZE_height / 2

def WHEEL_HALF_HEIGHT : ℚ := WHEEL_SIZE_radius / 2

def CART_HALF_WIDTH : ℚ := CART_SIZE_width / 2
def CART_HALF_DEPTH : ℚ := CART_SIZE_depth / 2
def WHEEL_HALF_WIDTH : ℚ := WHEEL_SIZE_width / 2

def WHEEL_FRONT_X : ℚ := CART_HALF_WIDTH
def WHEEL_BACK_X : ℚ := -CART_HALF_WIDTH

def WHEEL_LEFT_Z : ℚ := CART_HALF_DEPTH + WHEEL_HALF_WIDTH
def WHEEL_RIGHT_Z : ℚ := -(CART_HALF_DEPTH + WHEEL_HALF_WIDTH)

def RECALCULATED_CART_POSITION : Vec3 := ⟨0, CART_CENTER_Y, 0⟩

def RECALCULATED_BOX_POSITION : Vec3 :=
  ⟨0, CART_CENTER_Y + CART_SIZE_height / 2 + BOX_SIZE_height / 2, 0⟩

/-! ### Reset (Scene.tsx resetSimulation, lines 225-281)

The source performs a sequence of handle writes; later writes to the same
attribute overwrite earlier ones, so the function below applies them in the
same order via record updates.  Both body handles are taken as present. -/

def resetSimulation (cart box : Body) : Body × Body :=
  let cart1 : Body := { cart with rotation := identityQuat }
  let cart2 : Body := { cart1 with linvel := zeroVec, angvel := zeroVec }
  let cart3 : Body := { cart2 with position := RECALCULATED_CART_POSITION }
  let cart4 : Body := { cart3 with linvel := zeroVec, angvel := zeroVec }
  let cartPosition := cart4.position
  let cartTopSurfaceHeight := cartPosition.y + CART_SIZE_height / 2
  let boxYPosition := cartTopSurfaceHeight + BOX_SIZE_height / 2
  let box1 : Body := { box with rotation := identityQuat }
  let box2 : Body := { box1 with linvel := zeroVec, angvel := zeroVec }
  let box3 : Body :=
    { box2 with position := ⟨cartPosition.x, boxYPosition, cartPosition.z⟩ }
  let box4 : Body := { box3 with linvel := zeroVec, angvel := zeroVec }
  (cart4, box4)

/-! ### Simulation parameters (the SceneProps of Scene.tsx) -/

structure Params where
  floorFriction : ℚ
  cartBoxFriction : ℚ
  cartWeight : ℚ
  boxWeight : ℚ
  maxSpeed : ℚ
  acceleration : ℚ
  deceleration : ℚ
  distance : ℚ
deriving DecidableEq

/-- The mutable refs of the Scene component that the frame loop reads
(Scene.tsx lines 130-138).  Only their presence and numeric content matter to
the loop; simulationStartCameraDirection is tested for presence but never
read numerically inside useFrame. -/
structure SceneRefs where
  simulationStartCameraPosition : Option Vec3
  cameraOffset : Option Vec3
  simulationStartCameraDirection : Option Vec3
  simulationStartTime : Option ℚ
  initialCartPosition : Option Vec3
deriving DecidableEq

/-- State visible to one invocation of the useFrame callback. -/
structure FrameState where
  physicsEnabled : Bool
  isSimulating : Bool
  resetJustApplied : Bool
  cart : Body
  box : Body
  cameraPosition : Vec3
  wheelRotation : ℚ
  refs : SceneRefs
deriving DecidableEq

/-- Observable effects of one frame: the arguments of the two possible
applyImpulse calls on the cart, the telemetry triple passed to
onSimulationUpdate, how many times onSimulationComplete is invoked
synchronously in the frame, how many delayed invocations of it the frame
schedules via setTimeout, and the point the camera is told to look at. -/
structure FrameOutput where
  accelImpulse : Option Vec3
  decelImpulse : Option Vec3
  telemetry : Option (ℚ × ℚ × ℚ)
  immediateCompleteCalls : ℕ
  delayedCompleteCalls : ℕ
  lookTarget : Option Vec3
deriving DecidableEq

def emptyFrameOutput : FrameOutput :=
  { accelImpulse := none, decelImpulse := none, telemetry := none,
    immediateCompleteCalls := 0, delayedCompleteCalls := 0, lookTarget := none }

/-- Camera follow (Scene.tsx lines 347-374): horizontal interpolation toward
cart x plus the captured offset with smoothing factor 0.1, vertical and depth
pinned to the captured start position, look target at the cart.  Returns the
new camera position and the lookAt target. -/
def cameraFollowUpdate (cartPosition camPos startCamPos offset : Vec3) :
    Vec3 × Vec3 :=
  let smoothFactor : ℚ := 0.1
  let targetCameraX := cartPosition.x + offset.x
  let newX := camPos.x + (targetCameraX - camPos.x) * smoothFactor
  (⟨newX, startCamPos.y, startCamPos.z⟩, cartPosition)

/-- Box management (Scene.tsx lines 408-458).  In the locked regime
(resetJustApplied) the box is pinned to the cart top with the horizontal
velocity of the cart; in the free regime corrections apply only while the box
is within the 0.9/0.4 offset tolerances. -/
def boxManagement (resetJustApplied : Bool) (cartPosition currentVelocity : Vec3)
    (box : Body) : Body :=
  if resetJustApplied then
    let cartTopSurfaceHeight := cartPosition.y + CART_SIZE_height / 2
    let boxYPosition := cartTopSurfaceHeight + BOX_SIZE_height / 2
    { box with position := ⟨cartPosition.x, boxYPosition, cartPosition.z⟩,
               linvel := ⟨currentVelocity.x, 0, 0⟩,
               angvel := zeroVec,
               rotation := identityQuat }
  else
    let boxPosition := box.position
    if |boxPosition.x - cartPosition.x| < 0.9 ∧
       |boxPosition.z - cartPosition.z| < 0.4 then
      let boxRotation := box.rotation
      let box1 : Body :=
        if 0.01 < |boxRotation.x| ∨ 0.01 < |boxRotation.z| then
          { box with rotation := ⟨0, boxRotation.y, 0, boxRotation.w⟩ }
        else box
      let boxVelocity := box1.linvel
      if 1 < |boxVelocity.y| then
        { box1 with linvel := ⟨boxVelocity.x, boxVelocity.y * 0.7, boxVelocity.z⟩ }
      else box1
    else box

/-- Acceleration impulse (Scene.tsx lines 377-383): applied while the signed
horizontal velocity is below maxSpeed. -/
def accelImpulseCall (p : Params) (delta : ℚ) (currentVelocity : Vec3) :
    Option Vec3 :=
  if currentVelocity.x < p.maxSpeed then
    some ⟨p.acceleration * delta * p.cartWeight, 0, 0⟩
  else none

/-- Deceleration impulse (Scene.tsx lines 460-466): applied once the x
position of the cart has reached the target distance. -/
def decelImpulseCall (p : Params) (delta : ℚ) (cartPosition : Vec3) :
    Option Vec3 :=
  if p.distance ≤ cartPosition.x then
    some ⟨-(p.deceleration * delta * p.cartWeight), 0, 0⟩
  else none

/-- Telemetry triple (Scene.tsx lines 509-527): elapsed time, travel
distance, current speed. -/
def telemetryUpdate (now startTime : ℚ) (initialCartPos cartPosition currentVelocity : Vec3) :
    ℚ × ℚ × ℚ :=
  (now - startTime, |cartPosition.x - initialCartPos.x|, |currentVelocity.x|)

/-- Glossary conversion of an impulse to a velocity change: Δv = impulse / mass. -/
def applyImpulseToVelocity (impulse : Vec3) (mass : ℚ) (v : Vec3) : Vec3 :=
  ⟨v.x + impulse.x / mass, v.y + impulse.y / mass, v.z + impulse.z / mass⟩

/-- Net impulse applied to the cart in one frame. -/
def totalImpulse (out : FrameOutput) : Vec3 :=
  vecAdd (out.accelImpulse.getD zeroVec) (out.decelImpulse.getD zeroVec)

/-- One invocation of the useFrame callback (Scene.tsx lines 336-534), with
delta the frame duration and now the current wall-clock time in seconds.
The cart and box handles are taken as present (they are created at scene
construction); the onSimulationComplete and onSimulationUpdate callbacks are
taken as provided, as the App component always passes both. -/
def frameStep (p : Params) (delta now : ℚ) (s : FrameState) :
    FrameState × FrameOutput :=
  if s.physicsEnabled = false ∨ s.isSimulating = false then
    (s, emptyFrameOutput)
  else
    let currentVelocity := s.cart.linvel
    let cartPosition := s.cart.position
    let cameraResult :=
      match s.refs.simulationStartCameraPosition, s.refs.cameraOffset,
            s.refs.simulationStartCameraDirection with
      | some startCamPos, some offset, some _ =>
          some (cameraFollowUpdate cartPosition s.cameraPosition startCamPos offset)
      | _, _, _ => none
    let newCameraPosition := (cameraResult.map Prod.fst).getD s.cameraPosition
    let lookTarget := cameraResult.map Prod.snd
    let accCall := accelImpulseCall p delta currentVelocity
    let newWheelRotation := s.wheelRotation + currentVelocity.x * 10 * delta
    let newBox := boxManagement s.resetJustApplied cartPosition currentVelocity s.box
    let decCall := decelImpulseCall p delta cartPosition
    let delayedCalls : ℕ :=
      if p.distance ≤ cartPosition.x ∧ |currentVelocity.x| < 0.1 then 1 else 0
    let telem :=
      match s.refs.simulationStartTime, s.refs.initialCartPosition with
      | some startTime, some initialCartPos =>
          some (telemetryUpdate now startTime initialCartPos cartPosition currentVelocity)
      | _, _ => none
    let immediateCalls : ℕ :=
      match s.refs.simulationStartTime, s.refs.initialCartPosition with
      | some _, some initialCartPos =>
          if p.distance ≤ |cartPosition.x - initialCartPos.x| then 1 else 0
      | _, _ => 0
    ({ s with cameraPosition := newCameraPosition,
              box := newBox,
              wheelRotation := newWheelRotation },
     { accelImpulse := accCall, decelImpulse := decCall, telemetry := telem,
       immediateCompleteCalls := immediateCalls,
       delayedCompleteCalls := delayedCalls,
       lookTarget := lookTarget })

/-! ### App-level command handlers (src/unnamed/part_000) -/

inductive SelectedType
  | cart
  | box
deriving DecidableEq

/-- The App component state touched by the command handlers. -/
structure AppState where
  isSimulating : Bool
  isPaused : Bool
  selectedObject : Option SelectedType
  simulationTime : ℚ
  simulationDistance : ℚ
  simulationSpeed : ℚ
deriving DecidableEq

/-- The reset command handler (part_000 handleReset): leaves the Running
phase and zeroes all three telemetry values. -/
def handleReset (a : AppState) : AppState :=
  { a with isSimulating := false, isPaused := false, selectedObject := none,
           simulationTime := 0, simulationDistance := 0, simulationSpeed := 0 }

/-! ### Reset sequencer timers (Scene.tsx useEffect, lines 174-213)

On each Running-to-stopped transition the effect disables physics and
schedules an anonymous 100 ms setTimeout (not stored in any ref).  When that
timeout runs it performs the reset, sets resetJustApplied, clears any timer
id stored in resetTimerRef, and stores a fresh 1000 ms timeout in
resetTimerRef; when the 1000 ms timeout runs it clears the flags and
re-enables physics.  The model below replays this as a discrete-event
scheduler over millisecond timestamps, with fresh integer timer ids. -/

inductive TimerKind
  | resetStart
  | reenablePhysics
deriving DecidableEq

structure ScheduledTimer where
  tid : ℕ
  fireAt : ℕ
  kind : TimerKind
deriving DecidableEq

structure SequencerState where
  pending : List ScheduledTimer
  resetTimerRef : Option ℕ
  nextId : ℕ
  physicsEnabled : Bool
  resetJustApplied : Bool
  fired : List (ℕ × ℕ × TimerKind)
deriving DecidableEq

def initialSequencerState : SequencerState :=
  { pending := [], resetTimerRef := none, nextId := 0,
    physicsEnabled := true, resetJustApplied := false, fired := [] }

/-- A reset request at time t: physics is disabled and the anonymous 100 ms
timeout is scheduled; its id is not recorded anywhere. -/
def requestReset (t : ℕ) (s : SequencerState) : SequencerState :=
  { s with physicsEnabled := false,
           pending := s.pending ++ [⟨s.nextId, t + 100, TimerKind.resetStart⟩],
           nextId := s.nextId + 1 }

/-- Firing one scheduled timeout.  A resetStart timeout performs the reset,
clears the timer id held in resetTimerRef (window.clearTimeout) and stores a
fresh 1000 ms reenable timeout there; a reenablePhysics timeout clears the
settling flag and re-enables physics. -/
def fireTimer (s : SequencerState) (tm : ScheduledTimer) : SequencerState :=
  let s0 : SequencerState :=
    { s with pending := s.pending.filter (fun u => u.tid ≠ tm.tid) }
  match tm.kind with
  | TimerKind.resetStart =>
      let s1 : SequencerState := { s0 with resetJustApplied := true }
      let s2 : SequencerState :=
        match s1.resetTimerRef with
        | some i => { s1 with pending := s1.pending.filter (fun u => u.tid ≠ i) }
        | none => s1
      { s2 with pending := s2.pending ++
                  [⟨s2.nextId, tm.fireAt + 1000, TimerKind.reenablePhysics⟩],
                resetTimerRef := some s2.nextId,
                nextId := s2.nextId + 1,
                fired := s2.fired ++ [(tm.fireAt, tm.tid, tm.kind)] }
  | TimerKind.reenablePhysics =>
      { s0 with resetJustApplied := false, physicsEnabled := true,
                resetTimerRef := none,
                fired := s0.fired ++ [(tm.fireAt, tm.tid, tm.kind)] }

/-- Earliest pending timeout (first-scheduled wins ties, as in the event
loop). -/
def earliestPending (l : List ScheduledTimer) : Option ScheduledTimer :=
  l.foldl
    (fun best u =>
      match best with
      | none => some u
      | some b => if u.fireAt < b.fireAt then some u else some b)
    none

/-- Replay a sorted list of external reset-request times against the pending
timeouts, always consuming the earliest event next; an external request at
the same millisecond as a timeout is delivered first. -/
def sequencerRun (fuel : ℕ) (requests : List ℕ) (s : SequencerState) :
    SequencerState :=
  match fuel with
  | 0 => s
  | fuel + 1 =>
      match requests, earliestPending s.pending with
      | [], none => s
      | [], some tm => sequencerRun fuel [] (fireTimer s tm)
      | r :: rs, none => sequencerRun fuel rs (requestReset r s)
      | r :: rs, some tm =>
          if r ≤ tm.fireAt then sequencerRun fuel rs (requestReset r s)
          else sequencerRun fuel (r :: rs) (fireTimer s tm)

def runSequencer (requests : List ℕ) : SequencerState :=
  sequencerRun (3 * requests.length + 1) requests initialSequencerState

/-! ### Concrete fixtures

These instantiate the embedding on the scenario of the spec (acceleration 5,
deceleration 3, maxSpeed 10, cartWeight 10, distance 100) and on a few
nearby frame states used below. -/

def scenarioParams : Params :=
  { floorFriction := 0.5, cartBoxFriction := 0.5, cartWeight := 10,
    boxWeight := 5, maxSpeed := 10, acceleration := 5, deceleration := 3,
    distance := 100 }

def startRefs : SceneRefs :=
  { simulationStartCameraPosition := some ⟨10, 10, 10⟩,
    cameraOffset := some ⟨10, 97/10, 10⟩,
    simulationStartCameraDirection := some ⟨0, 0, -1⟩,
    simulationStartTime := some 0,
    initialCartPosition := some ⟨0, CART_CENTER_Y, 0⟩ }

/-- The nominal end-of-run frame: the cart has just reached the target
distance (x = 100 after starting at x = 0) and is nearly stopped
(velocity 0.05 m/s). -/
def completionFrame : FrameState :=
  { physicsEnabled := true, isSimulating := true, resetJustApplied := false,
    cart := { position := ⟨100, CART_CENTER_Y, 0⟩, linvel := ⟨0.05, 0, 0⟩,
              angvel := zeroVec, rotation := identityQuat },
    box := { position := ⟨100, RECALCULATED_BOX_POSITION.y, 0⟩,
             linvel := ⟨0.05, 0, 0⟩, angvel := zeroVec, rotation := identityQuat },
    cameraPosition := ⟨110, 10, 10⟩, wheelRotation := 0, refs := startRefs }

/-- A running frame in which the cart moves backward at 20 m/s, far above
maxSpeed in magnitude. -/
def negVelFrame : FrameState :=
  { completionFrame with
    cart := { position := ⟨3, CART_CENTER_Y, 0⟩, linvel := ⟨-20, 0, 0⟩,
              angvel := zeroVec, rotation := identityQuat } }

/-- A running frame with the cart at x = 5 rolling backward at 3 m/s. -/
def backFrame5 : FrameState :=
  { completionFrame with
    cart := { position := ⟨5, CART_CENTER_Y, 0⟩, linvel := ⟨-3, 0, 0⟩,
              angvel := zeroVec, rotation := identityQuat } }

/-- The following frame: the physics engine has carried the cart back to
x = 4 at the same backward velocity. -/
def backFrame4 : FrameState :=
  { completionFrame with
    cart := { position := ⟨4, CART_CENTER_Y, 0⟩, linvel := ⟨-3, 0, 0⟩,
              angvel := zeroVec, rotation := identityQuat } }

/-- A box pushed 2 m ahead of the cart, far past the 0.9 m tolerance. -/
def farBox : Body :=
  { position := ⟨2, RECALCULATED_BOX_POSITION.y, 0⟩, linvel := ⟨1, -2, 0⟩,
    angvel := ⟨0, 0, 1⟩, rotation := ⟨0.3, 0, 0.2, 0.933⟩ }

/-- A box sitting on the cart, tilted about x and bouncing upward at 2 m/s. -/
def tiltedBox : Body :=
  { position := ⟨0, RECALCULATED_BOX_POSITION.y, 0⟩, linvel := ⟨1, 2, 0⟩,
    angvel := zeroVec, rotation := ⟨0.2, 0.1, 0, 0.97⟩ }

/-- A box whose unit rotation quaternion has all four components 1/2. -/
def diagonalBox : Body :=
  { position := ⟨0, RECALCULATED_BOX_POSITION.y, 0⟩, linvel := ⟨1, 0, 0⟩,
    angvel := zeroVec, rotation := ⟨1/2, 1/2, 1/2, 1/2⟩ }

/-! ### Helper lemmas shared by the claim theorems -/

lemma boxFree_no_correction (cartPos cartVel : Vec3) (box : Body)
    (h : ¬(|box.position.x - cartPos.x| < 0.9 ∧ |box.position.z - cartPos.z| < 0.4)) :
    boxManagement false cartPos cartVel box = box := by
  simp only [boxManagement, Bool.false_eq_true, if_false, if_neg h]

lemma boxFree_rotation_write (cartPos cartVel : Vec3) (box : Body)
    (h1 : |box.position.x - cartPos.x| < 0.9)
    (h2 : |box.position.z - cartPos.z| < 0.4)
    (ht : 0.01 < |box.rotation.x| ∨ 0.01 < |box.rotation.z|) :
    (boxManagement false cartPos cartVel box).rotation
      = ⟨0, box.rotation.y, 0, box.rotation.w⟩ := by
  simp only [boxManagement, Bool.false_eq_true, if_false, if_pos (And.intro h1 h2),
    if_pos ht]
  by_cases hv : 1 < |box.linvel.y|
  · rw [if_pos hv]
  · rw [if_neg hv]

lemma boxFree_velocity_damp (cartPos cartVel : Vec3) (box : Body)
    (h1 : |box.position.x - cartPos.x| < 0.9)
    (h2 : |box.position.z - cartPos.z| < 0.4)
    (hv : 1 < |box.linvel.y|) :
    (boxManagement false cartPos cartVel box).linvel
      = ⟨box.linvel.x, box.linvel.y * 0.7, box.linvel.z⟩ := by
  simp only [boxManagement, Bool.false_eq_true, if_false, if_pos (And.intro h1 h2)]
  by_cases ht : 0.01 < |box.rotation.x| ∨ 0.01 < |box.rotation.z|
  · rw [if_pos ht, if_pos hv]
  · rw [if_neg ht, if_pos hv]

lemma frameStep_running_accel (p : Params) (delta now : ℚ) (s : FrameState)
    (h1 : s.physicsEnabled = true) (h2 : s.isSimulating = true) :
    (frameStep p delta now s).2.accelImpulse
      = accelImpulseCall p delta s.cart.linvel := by
  rw [frameStep, if_neg (by simp [h1, h2])]

lemma frameStep_running_decel (p : Params) (delta now : ℚ) (s : FrameState)
    (h1 : s.physicsEnabled = true) (h2 : s.isSimulating = true) :
    (frameStep p delta now s).2.decelImpulse
      = decelImpulseCall p delta s.cart.position := by
  rw [frameStep, if_neg (by simp [h1, h2])]

/-! ### Claim theorems -/

/-- Claim C1 (code bug): the spec requires onSimulationComplete to be invoked
exactly once per run, but the frame loop has no once-only guard.  In the
nominal end-of-run frame (started at x = 0, now at x = targetDistance = 100
with |velocity.x| = 0.05 < 0.1) the travel-distance check of lines 529-532
invokes the callback immediately and, in the same frame, the stopped check of
lines 467-474 schedules a second invocation via a 100 ms setTimeout: two
invocations for one run. -/
theorem C1_completion_double_fire :
    scenarioParams.distance ≤ completionFrame.cart.position.x
    ∧ |completionFrame.cart.linvel.x| < 0.1
    ∧ (frameStep scenarioParams (1/60) 20 completionFrame).2.immediateCompleteCalls
        + (frameStep scenarioParams (1/60) 20 completionFrame).2.delayedCompleteCalls
        = 2 := by
  norm_num [frameStep, scenarioParams, completionFrame, startRefs,
    telemetryUpdate, accelImpulseCall, decelImpulseCall, boxManagement,
    cameraFollowUpdate, abs_of_nonneg, abs_of_nonpos, CART_CENTER_Y,
    CART_BOTTOM_Y, FLOOR_TOP_Y, FLOOR_HEIGHT, FLOOR_THICKNESS,
    WHEEL_SIZE_radius, CART_SIZE_height, RECALCULATED_BOX_POSITION,
    BOX_SIZE_height]

/-- Claim C2 counterexample: the claim states the forward impulse is applied
if and only if |velocity.x| < maxSpeed, but the source tests the signed
velocity (currentVelocity.x < maxSpeed, line 378).  With velocity.x = -20 and
maxSpeed = 10 the absolute-value condition is false, yet the frame applies
the forward impulse. -/
theorem C2_abs_speed_counterexample :
    negVelFrame.cart.linvel.x = -20
    ∧ scenarioParams.maxSpeed = 10
    ∧ ¬(|negVelFrame.cart.linvel.x| < scenarioParams.maxSpeed)
    ∧ (frameStep scenarioParams (1/60) 20 negVelFrame).2.accelImpulse
        = some ⟨scenarioParams.acceleration * (1/60) * scenarioParams.cartWeight,
                0, 0⟩ := by
  refine ⟨rfl, rfl, by norm_num [negVelFrame, completionFrame, scenarioParams], ?_⟩
  rw [frameStep_running_accel scenarioParams (1/60) 20 negVelFrame rfl rfl]
  norm_num [accelImpulseCall, negVelFrame, completionFrame, scenarioParams]

/-- Claim C2 (amended): on every frame while running with physics enabled,
the motion controller applies a forward impulse of exactly
acceleration x frameDuration x cartMass along the travel axis if and only if
the SIGNED horizontal velocity satisfies velocity.x < maxSpeed; under
impulse-to-velocity conversion via mass (with nonzero cart mass) that impulse
increases horizontal velocity by acceleration x dt. -/
theorem C2_signed_speed_gate (p : Params) (delta now : ℚ) (s : FrameState)
    (h1 : s.physicsEnabled = true) (h2 : s.isSimulating = true) :
    ((frameStep p delta now s).2.accelImpulse
        = some ⟨p.acceleration * delta * p.cartWeight, 0, 0⟩
      ↔ s.cart.linvel.x < p.maxSpeed)
    ∧ (0 < delta → p.cartWeight ≠ 0 →
        (applyImpulseToVelocity ⟨p.acceleration * delta * p.cartWeight, 0, 0⟩
            p.cartWeight s.cart.linvel).x
          = s.cart.linvel.x + p.acceleration * delta) := by
  constructor
  · rw [frameStep_running_accel p delta now s h1 h2]
    by_cases hv : s.cart.linvel.x < p.maxSpeed
    · simp [accelImpulseCall, hv]
    · simp [accelImpulseCall, hv]
  · intro _ hm
    simp only [applyImpulseToVelocity]
    field_simp

/-- Witness for C2_signed_speed_gate at the scenario parameters and the
nominal end-of-run frame (velocity 0.05 < maxSpeed 10). -/
theorem C2_signed_speed_gate_witness :
    (frameStep scenarioParams (1/60) 20 completionFrame).2.accelImpulse
      = some ⟨scenarioParams.acceleration * (1/60) * scenarioParams.cartWeight, 0, 0⟩
    ∧ (applyImpulseToVelocity
          ⟨scenarioParams.acceleration * (1/60) * scenarioParams.cartWeight, 0, 0⟩
          scenarioParams.cartWeight completionFrame.cart.linvel).x
        = completionFrame.cart.linvel.x + scenarioParams.acceleration * (1/60) := by
  have h := C2_signed_speed_gate scenarioParams (1/60) 20 completionFrame rfl rfl
  exact ⟨h.1.mpr (by norm_num [completionFrame, scenarioParams]),
         h.2 (by norm_num) (by norm_num [scenarioParams])⟩

/-- Claim C3 (confirmed): on every running frame with position.x at or beyond
targetDistance the reverse impulse -(deceleration x frameDuration x cartMass)
is applied, for every velocity (the hypotheses place no constraint on the
velocity sign or on the max-speed comparison); and when the below-max-speed
condition also holds, both impulses are applied and the net impulse is
(acceleration - deceleration) x frameDuration x cartMass. -/
theorem C3_decel_impulse (p : Params) (delta now : ℚ) (s : FrameState)
    (h1 : s.physicsEnabled = true) (h2 : s.isSimulating = true)
    (hx : p.distance ≤ s.cart.position.x) :
    (frameStep p delta now s).2.decelImpulse
      = some ⟨-(p.deceleration * delta * p.cartWeight), 0, 0⟩
    ∧ (s.cart.linvel.x < p.maxSpeed →
        totalImpulse (frameStep p delta now s).2
          = ⟨(p.acceleration - p.deceleration) * delta * p.cartWeight, 0, 0⟩) := by
  constructor
  · rw [frameStep_running_decel p delta now s h1 h2]
    simp [decelImpulseCall, hx]
  · intro hv
    simp only [totalImpulse, frameStep_running_accel p delta now s h1 h2,
      frameStep_running_decel p delta now s h1 h2, accelImpulseCall,
      decelImpulseCall, if_pos hv, if_pos hx, Option.getD_some, vecAdd,
      Vec3.mk.injEq]
    exact ⟨by ring, by ring, by ring⟩

/-- Witness for C3_decel_impulse at the end-of-run frame, where both the
beyond-target and the below-max-speed conditions hold. -/
theorem C3_decel_impulse_witness :
    (frameStep scenarioParams (1/60) 20 completionFrame).2.decelImpulse
      = some ⟨-(scenarioParams.deceleration * (1/60) * scenarioParams.cartWeight),
              0, 0⟩
    ∧ totalImpulse (frameStep scenarioParams (1/60) 20 completionFrame).2
        = ⟨(scenarioParams.acceleration - scenarioParams.deceleration)
             * (1/60) * scenarioParams.cartWeight, 0, 0⟩ := by
  have h := C3_decel_impulse scenarioParams (1/60) 20 completionFrame rfl rfl
    (by norm_num [scenarioParams, completionFrame])
  exact ⟨h.1, h.2 (by norm_num [scenarioParams, completionFrame])⟩

/-- Claim C4 counterexample: distance telemetry is not monotonically
non-decreasing while Running.  Reverse impulses keep being applied while the
cart is at or beyond the target regardless of velocity sign (claim C3), so
the cart can roll back toward its start position with the run still on; in
two such consecutive running frames (cart carried from x = 5 to x = 4 by the
physics engine, start position x = 0) the emitted distance drops from 5 to
4. -/
theorem C4_distance_decrease_counterexample :
    backFrame5.isSimulating = true ∧ backFrame4.isSimulating = true
    ∧ (frameStep scenarioParams (1/60) 1 backFrame5).2.telemetry = some (1, 5, 3)
    ∧ (frameStep scenarioParams (1/60) 2 backFrame4).2.telemetry = some (2, 4, 3)
    ∧ ¬((5:ℚ) ≤ 4) := by
  refine ⟨rfl, rfl, ?_, ?_, by norm_num⟩ <;>
    norm_num [frameStep, scenarioParams, backFrame5, backFrame4, completionFrame,
      startRefs, telemetryUpdate, accelImpulseCall, decelImpulseCall,
      boxManagement, cameraFollowUpdate, abs_of_nonneg, abs_of_nonpos,
      CART_CENTER_Y, CART_BOTTOM_Y, FLOOR_TOP_Y, FLOOR_HEIGHT, FLOOR_THICKNESS,
      WHEEL_SIZE_radius, CART_SIZE_height, RECALCULATED_BOX_POSITION,
      BOX_SIZE_height]

/-- Claim C4 (amended): every emitted telemetry value is non-negative on
every frame (elapsed time under the hypothesis that the clock is not before
the recorded start time; distance and speed unconditionally, as absolute
values), and the reset command handler zeroes the telemetry on leaving the
Running phase.  The monotonicity part of the original claim is dropped, as
forced by the counterexample. -/
theorem C4_telemetry_nonneg_reset :
    (∀ (p : Params) (delta now : ℚ) (s : FrameState) (t0 e d sp : ℚ),
      s.refs.simulationStartTime = some t0 → t0 ≤ now →
      (frameStep p delta now s).2.telemetry = some (e, d, sp) →
      0 ≤ e ∧ 0 ≤ d ∧ 0 ≤ sp)
    ∧ (∀ a : AppState,
        (handleReset a).simulationDistance = 0
        ∧ (handleReset a).simulationTime = 0
        ∧ (handleReset a).simulationSpeed = 0
        ∧ (handleReset a).isSimulating = false) := by
  constructor
  · intro p delta now s t0 e d sp hst hle htel
    by_cases hg : s.physicsEnabled = false ∨ s.isSimulating = false
    · rw [frameStep, if_pos hg] at htel
      simp [emptyFrameOutput] at htel
    · rw [frameStep, if_neg hg] at htel
      cases hx : s.refs.initialCartPosition with
      | none =>
          rw [hst, hx] at htel
          simp at htel
      | some x0 =>
          rw [hst, hx] at htel
          simp only [telemetryUpdate] at htel
          simp at htel
          obtain ⟨he, hd, hsp⟩ := htel
          refine ⟨?_, ?_, ?_⟩
          · rw [← he]; exact sub_nonneg.mpr hle
          · rw [← hd]; exact abs_nonneg _
          · rw [← hsp]; exact abs_nonneg _
  · intro a
    simp [handleReset]

/-- Witness for C4_telemetry_nonneg_reset at the end-of-run frame: the
emitted triple there is (20, 100, 1/20), and each component is
non-negative. -/
theorem C4_telemetry_nonneg_reset_witness :
    (0:ℚ) ≤ 20 ∧ (0:ℚ) ≤ 100 ∧ (0:ℚ) ≤ 1/20 := by
  refine C4_telemetry_nonneg_reset.1 scenarioParams (1/60) 20 completionFrame
    0 20 100 (1/20) rfl (by norm_num) ?_
  norm_num [frameStep, scenarioParams, completionFrame, startRefs,
    telemetryUpdate, accelImpulseCall, decelImpulseCall, boxManagement,
    cameraFollowUpdate, abs_of_nonneg, abs_of_nonpos, CART_CENTER_Y,
    CART_BOTTOM_Y, FLOOR_TOP_Y, FLOOR_HEIGHT, FLOOR_THICKNESS,
    WHEEL_SIZE_radius, CART_SIZE_height, RECALCULATED_BOX_POSITION,
    BOX_SIZE_height]

/-- Claim C5 (confirmed): after a reset the cart sits at the recalculated
initial position with zero linear and angular velocity and identity
rotation, and the box sits at the same horizontal coordinates as the cart
with its center at the cart top surface height plus half the box height,
with zero velocities and identity rotation. -/
theorem C5_reset_restores (cart box : Body) :
    (resetSimulation cart box).1.position = RECALCULATED_CART_POSITION
    ∧ (resetSimulation cart box).1.linvel = zeroVec
    ∧ (resetSimulation cart box).1.angvel = zeroVec
    ∧ (resetSimulation cart box).1.rotation = identityQuat
    ∧ (resetSimulation cart box).2.position
        = ⟨(resetSimulation cart box).1.position.x,
           (resetSimulation cart box).1.position.y
             + CART_SIZE_height / 2 + BOX_SIZE_height / 2,
           (resetSimulation cart box).1.position.z⟩
    ∧ (resetSimulation cart box).2.linvel = zeroVec
    ∧ (resetSimulation cart box).2.angvel = zeroVec
    ∧ (resetSimulation cart box).2.rotation = identityQuat := by
  simp [resetSimulation]

/-- Claim C6 (confirmed): in the free regime, a box whose horizontal or
lateral offset from the cart exceeds the tolerance receives no correction at
all (the stabilization step returns the box unchanged); within the
tolerances, tilt beyond the 0.01 threshold causes the non-vertical rotation
components to be zeroed, and vertical velocity of magnitude above 1 is
multiplied by 0.7 with the horizontal and lateral components unchanged. -/
theorem C6_free_regime (cartPos cartVel : Vec3) (box : Body) :
    ((0.9 < |box.position.x - cartPos.x| ∨ 0.4 < |box.position.z - cartPos.z|) →
      boxManagement false cartPos cartVel box = box)
    ∧ (|box.position.x - cartPos.x| < 0.9 → |box.position.z - cartPos.z| < 0.4 →
        ((0.01 < |box.rotation.x| ∨ 0.01 < |box.rotation.z|) →
          (boxManagement false cartPos cartVel box).rotation
            = ⟨0, box.rotation.y, 0, box.rotation.w⟩)
        ∧ (1 < |box.linvel.y| →
            (boxManagement false cartPos cartVel box).linvel
              = ⟨box.linvel.x, box.linvel.y * 0.7, box.linvel.z⟩)) := by
  refine ⟨fun h => boxFree_no_correction _ _ _ ?_, fun h1 h2 =>
    ⟨boxFree_rotation_write _ _ _ h1 h2, boxFree_velocity_damp _ _ _ h1 h2⟩⟩
  rcases h with h | h
  · exact fun hc => absurd hc.1 (not_lt.mpr h.le)
  · exact fun hc => absurd hc.2 (not_lt.mpr h.le)

/-- Witness for C6_free_regime: a box 2 m ahead of the cart is left exactly
as it is, and a tilted bouncing box on the cart gets the rotation write and
the 0.7 vertical damping. -/
theorem C6_free_regime_witness :
    boxManagement false ⟨0, CART_CENTER_Y, 0⟩ ⟨1, 0, 0⟩ farBox = farBox
    ∧ (boxManagement false ⟨0, CART_CENTER_Y, 0⟩ ⟨1, 0, 0⟩ tiltedBox).rotation
        = ⟨0, tiltedBox.rotation.y, 0, tiltedBox.rotation.w⟩
    ∧ (boxManagement false ⟨0, CART_CENTER_Y, 0⟩ ⟨1, 0, 0⟩ tiltedBox).linvel
        = ⟨tiltedBox.linvel.x, tiltedBox.linvel.y * 0.7, tiltedBox.linvel.z⟩ := by
  have hin := (C6_free_regime ⟨0, CART_CENTER_Y, 0⟩ ⟨1, 0, 0⟩ tiltedBox).2
    (by norm_num [tiltedBox]) (by norm_num [tiltedBox])
  exact ⟨(C6_free_regime ⟨0, CART_CENTER_Y, 0⟩ ⟨1, 0, 0⟩ farBox).1
           (Or.inl (by norm_num [farBox])),
         hin.1 (Or.inl (by norm_num [tiltedBox, abs_of_nonneg])),
         hin.2 (by norm_num [tiltedBox])⟩

/-- Claim C7 counterexample: delayed actions of an earlier reset can fire
after a new reset is requested.  In the run with reset requests at 0 ms and
50 ms, the 100 ms settle timeout of the first reset (timer id 0) fires at
100 ms, after the second request; in the run with requests at 0 ms and
1050 ms, the 1000 ms re-enable timeout of the first reset (timer id 1,
scheduled when its settle timeout ran at 100 ms) fires at 1100 ms, after the
second request. -/
theorem C7_uncancelled_counterexample :
    ((100, 0, TimerKind.resetStart) ∈ (runSequencer [0, 50]).fired
      ∧ (50:ℕ) < 100)
    ∧ ((1100, 1, TimerKind.reenablePhysics) ∈ (runSequencer [0, 1050]).fired
      ∧ (1050:ℕ) < 1100) := by decide

/-- Claim C7 (amended): when a reset is requested d ms (0 < d < 100) after a
previous reset, the re-enable timeout of the earlier reset (timer id 2,
scheduled at 100 ms for 1100 ms) is cleared when the settle timeout of the
new reset runs at d + 100 ms, and it never fires: the complete firing record
of the run holds both 100 ms settle actions and only the re-enable action of
the later reset.  The 100 ms settle timeout of the earlier reset is not
cancellable and fires even though a newer reset was requested. -/
theorem C7_reenable_cancelled (d : ℕ) (h1 : 0 < d) (h2 : d < 100) :
    (runSequencer [0, d]).fired
      = [(100, 0, TimerKind.resetStart), (d + 100, 1, TimerKind.resetStart),
         (d + 1100, 3, TimerKind.reenablePhysics)] := by
  interval_cases d <;> rfl

/-- Witness for C7_reenable_cancelled at d = 50. -/
theorem C7_reenable_cancelled_witness :
    (runSequencer [0, 50]).fired
      = [(100, 0, TimerKind.resetStart), (150, 1, TimerKind.resetStart),
         (1150, 3, TimerKind.reenablePhysics)] :=
  C7_reenable_cancelled 50 (by norm_num) (by norm_num)

/-- Claim C8 (confirmed): while Running with the phase-entry captures
present, each frame moves the camera horizontal position by the fixed factor
0.1 toward cart x plus the captured offset, pins the vertical and depth
coordinates to the captured start values, and aims the camera at the current
cart position. -/
theorem C8_camera_follow (p : Params) (delta now : ℚ) (s : FrameState)
    (startCamPos offset dir : Vec3)
    (h1 : s.physicsEnabled = true) (h2 : s.isSimulating = true)
    (hc : s.refs.simulationStartCameraPosition = some startCamPos)
    (ho : s.refs.cameraOffset = some offset)
    (hd : s.refs.simulationStartCameraDirection = some dir) :
    (frameStep p delta now s).1.cameraPosition
      = ⟨s.cameraPosition.x
           + (s.cart.position.x + offset.x - s.cameraPosition.x) * 0.1,
         startCamPos.y, startCamPos.z⟩
    ∧ (frameStep p delta now s).2.lookTarget = some s.cart.position := by
  rw [frameStep, if_neg (by simp [h1, h2])]
  rw [hc, ho, hd]
  simp [cameraFollowUpdate]

/-- Witness for C8_camera_follow at the end-of-run frame: the camera is at
its target (110 = 100 + offset 10), so the interpolation leaves it there,
and the look target is the cart position. -/
theorem C8_camera_follow_witness :
    (frameStep scenarioParams (1/60) 20 completionFrame).1.cameraPosition
      = ⟨110, 10, 10⟩
    ∧ (frameStep scenarioParams (1/60) 20 completionFrame).2.lookTarget
        = some ⟨100, CART_CENTER_Y, 0⟩ := by
  have h := C8_camera_follow scenarioParams (1/60) 20 completionFrame
    ⟨10, 10, 10⟩ ⟨10, 97/10, 10⟩ ⟨0, 0, -1⟩ rfl rfl rfl rfl rfl
  refine ⟨h.1.trans ?_, h.2.trans ?_⟩
  · norm_num [completionFrame, Vec3.mk.injEq]
  · norm_num [completionFrame]

/-- Claim C9 (confirmed): wheel center height is floor top plus wheel
radius; cart center height is floor top plus half a wheel radius plus half
the cart height (equal to 3/10); the initial box center height is the cart
center plus half the cart height plus half the box height (equal to 4/5);
and the wheel offsets put the wheel side faces flush with the cart side
faces on both sides, front and back. -/
theorem C9_derived_geometry :
    WHEEL_CENTER_Y = FLOOR_TOP_Y + WHEEL_SIZE_radius
    ∧ CART_CENTER_Y = FLOOR_TOP_Y + WHEEL_SIZE_radius / 2 + CART_SIZE_height / 2
    ∧ CART_CENTER_Y = 3/10
    ∧ RECALCULATED_BOX_POSITION.y
        = CART_CENTER_Y + CART_SIZE_height / 2 + BOX_SIZE_height / 2
    ∧ RECALCULATED_BOX_POSITION.y = 4/5
    ∧ WHEEL_FRONT_X = CART_HALF_WIDTH
    ∧ WHEEL_BACK_X = -CART_HALF_WIDTH
    ∧ WHEEL_LEFT_Z - WHEEL_HALF_WIDTH = CART_HALF_DEPTH
    ∧ WHEEL_RIGHT_Z + WHEEL_HALF_WIDTH = -CART_HALF_DEPTH := by
  norm_num [WHEEL_CENTER_Y, FLOOR_TOP_Y, WHEEL_SIZE_radius, CART_CENTER_Y,
    CART_BOTTOM_Y, CART_SIZE_height, RECALCULATED_BOX_POSITION, BOX_SIZE_height,
    WHEEL_FRONT_X, WHEEL_BACK_X, CART_HALF_WIDTH, CART_SIZE_width,
    WHEEL_LEFT_Z, WHEEL_RIGHT_Z, WHEEL_HALF_WIDTH, CART_HALF_DEPTH,
    CART_SIZE_depth, WHEEL_SIZE_width, FLOOR_HEIGHT, FLOOR_THICKNESS]

/-- Claim C10 (confirmed): the free-regime tilt correction writes the
quaternion (0, qy, 0, qw) reusing the current y and w components without
renormalization, and for any unit rotation whose x or z component has
magnitude above the tilt threshold the written quaternion has squared norm
qy * qy + qw * qw strictly below 1 (hence norm strictly below 1): it is not
a unit quaternion. -/
theorem C10_tilt_quaternion (cartPos cartVel : Vec3) (box : Body)
    (h1 : |box.position.x - cartPos.x| < 0.9)
    (h2 : |box.position.z - cartPos.z| < 0.4)
    (ht : 0.01 < |box.rotation.x| ∨ 0.01 < |box.rotation.z|)
    (hu : quatNormSq box.rotation = 1) :
    (boxManagement false cartPos cartVel box).rotation
      = ⟨0, box.rotation.y, 0, box.rotation.w⟩
    ∧ quatNormSq (boxManagement false cartPos cartVel box).rotation < 1 := by
  have hrot := boxFree_rotation_write cartPos cartVel box h1 h2 ht
  refine ⟨hrot, ?_⟩
  rw [hrot]
  simp only [quatNormSq] at hu ⊢
  rcases ht with h | h
  · have hx := mul_self_lt_mul_self (by norm_num : (0:ℚ) ≤ 0.01) h
    rw [abs_mul_abs_self] at hx
    nlinarith [mul_self_nonneg box.rotation.z]
  · have hx := mul_self_lt_mul_self (by norm_num : (0:ℚ) ≤ 0.01) h
    rw [abs_mul_abs_self] at hx
    nlinarith [mul_self_nonneg box.rotation.x]

/-- Witness for C10_tilt_quaternion: the unit rotation with all components
1/2 is corrected to (0, 1/2, 0, 1/2), whose squared norm is 1/2 < 1. -/
theorem C10_tilt_quaternion_witness :
    (boxManagement false ⟨0, CART_CENTER_Y, 0⟩ ⟨1, 0, 0⟩ diagonalBox).rotation
      = ⟨0, 1/2, 0, 1/2⟩
    ∧ quatNormSq
        (boxManagement false ⟨0, CART_CENTER_Y, 0⟩ ⟨1, 0, 0⟩ diagonalBox).rotation
      < 1 := by
  have h := C10_tilt_quaternion ⟨0, CART_CENTER_Y, 0⟩ ⟨1, 0, 0⟩ diagonalBox
    (by norm_num [diagonalBox]) (by norm_num [diagonalBox])
    (Or.inl (by norm_num [diagonalBox, abs_of_nonneg]))
    (by norm_num [diagonalBox, quatNormSq])
  exact ⟨h.1.trans (by norm_num [diagonalBox]), h.2⟩
